import Mathlib

/-!
Verification of the camera-overlay application in `src/app.js` (MediaPipe
Holistic demo).  The definitions below are a shallow embedding of the
script's state and per-frame logic: global mutable variables become explicit
state records, the async `startCamera` routine becomes a sequence of atomic
segments separated at its `await` points, and the canvas 2D context becomes
an explicit transform-stack state.  External collaborator behaviour
(MediaPipe libraries, DOM) is modelled only where the script's own logic
depends on it.
-/

/-- Camera facing values used by the script: `currentFacing` is either the
string `'environment'` (back camera, the initial value at line 24) or
`'user'` (front camera); these are the only two values ever assigned. -/
inductive Facing where
  | user
  | environment
deriving DecidableEq

/-- Line 24: `let currentFacing = 'environment'; // default use back camera`. -/
def initialFacing : Facing := Facing.environment

/-- Line 25: `let mirrorBackCamera = true;` — never reassigned anywhere in
the script. -/
def mirrorBackCamera : Bool := true

/-- Line 168 (switch-button click handler):
`currentFacing = currentFacing === 'environment' ? 'user' : 'environment';`. -/
def toggleFacing : Facing → Facing
  | Facing.environment => Facing.user
  | Facing.user => Facing.environment

/-- Line 46: `const shouldMirror = (currentFacing === 'user') ? true :
mirrorBackCamera;`.  The script computes the mirror flag from the variable
`currentFacing`, which holds the facing the script last requested. -/
def shouldMirror (currentFacing : Facing) (mirrorBack : Bool) : Bool :=
  match currentFacing with
  | Facing.user => true
  | Facing.environment => mirrorBack

/-- Draw-time mirror decision as the code computes it, expressed over both a
granted facing (as the platform may report one) and the requested facing:
the script keeps no variable for the granted facing and never calls
`getSettings()` on the obtained tracks, so the decision at line 46 reads the
requested facing alone and the granted facing is ignored. -/
def codeMirrorDecision (_granted : Option Facing) (requested : Facing)
    (mirrorBack : Bool) : Bool :=
  shouldMirror requested mirrorBack

/-- Mirror decision as claim C4 words it: computed from the granted facing
when the platform reports one, falling back to the requested facing
otherwise.  Stated from the spec for comparison with `codeMirrorDecision`. -/
def claimMirrorDecision (granted : Option Facing) (requested : Facing)
    (mirrorBack : Bool) : Bool :=
  match granted with
  | some g => shouldMirror g mirrorBack
  | none => shouldMirror requested mirrorBack

/-- Pixel dimensions of the overlay canvas element. -/
structure CanvasDims where
  width : Nat
  height : Nat
deriving DecidableEq

/-- Lines 28-33, `resizeCanvas()`:
`const vw = video.videoWidth || window.innerWidth;`
`const vh = video.videoHeight || window.innerHeight;`
`canvas.width = vw; canvas.height = vh;`
JavaScript `||` falls back exactly when `videoWidth`/`videoHeight` is `0`
(no decoded frame yet).  The prior canvas dimensions are overwritten
unconditionally. -/
def resizeCanvas (videoWidth videoHeight innerWidth innerHeight : Nat)
    (_prior : CanvasDims) : CanvasDims :=
  let vw := if videoWidth ≠ 0 then videoWidth else innerWidth
  let vh := if videoHeight ≠ 0 then videoHeight else innerHeight
  { width := vw, height := vh }

/-- Claim C5: after the canvas-sizing sync runs for a frame of native
dimensions W×H (a decoded frame, so both are nonzero), the canvas pixel
dimensions equal exactly W×H regardless of their prior values, and when the
dimensions already match the sync leaves them unchanged (no-op on the
dimension state). -/
theorem resizeCanvas_sets_exact_dims (W H winW winH : Nat) (prior : CanvasDims)
    (hW : 0 < W) (hH : 0 < H) :
    resizeCanvas W H winW winH prior = { width := W, height := H } ∧
    (prior = { width := W, height := H } →
      resizeCanvas W H winW winH prior = prior) := by
  constructor
  · simp [resizeCanvas, Nat.pos_iff_ne_zero.mp hW, Nat.pos_iff_ne_zero.mp hH]
  · intro hp
    simp [resizeCanvas, Nat.pos_iff_ne_zero.mp hW, Nat.pos_iff_ne_zero.mp hH, hp]

/-- Witness for C5 at the concrete frame 1280×720 with prior canvas 640×480. -/
theorem resizeCanvas_sets_exact_dims_witness :
    0 < 1280 ∧ 0 < 720 ∧
    resizeCanvas 1280 720 999 999 { width := 640, height := 480 } =
      { width := 1280, height := 720 } :=
  ⟨by decide, by decide,
    (resizeCanvas_sets_exact_dims 1280 720 999 999
      { width := 640, height := 480 } (by decide) (by decide)).1⟩

/-- Claim C6: the switch-camera action toggles the requested facing (line
168), and the mirror flag is recomputed from it (line 46) with the constant
`mirrorBackCamera` policy; performing the switch twice returns both the
requested facing and the mirror flag to their original values. -/
theorem switch_twice_involution (f : Facing) (mb : Bool) :
    toggleFacing (toggleFacing f) = f ∧
    shouldMirror (toggleFacing (toggleFacing f)) mb = shouldMirror f mb := by
  cases f <;> simp [toggleFacing]

/-- Claim C9: with the shipped configuration `mirrorBackCamera = true`
(line 25, never reassigned), the mirror flag computed at line 46 is `true`
for every facing, so every overlay frame is drawn mirrored. -/
theorem mirror_always_true_in_shipped_config (f : Facing) :
    shouldMirror f mirrorBackCamera = true := by
  cases f <;> simp [shouldMirror, mirrorBackCamera]

/-- Claim C4 counterexample: with requested facing `'user'`, granted facing
`'environment'` and `mirrorBackCamera = false`, the claim's
granted-authoritative decision gives `false` while the code's decision
(line 46, which reads only the requested facing) gives `true`; moreover the
code's decision never depends on the granted facing at all. -/
theorem mirror_uses_requested_not_granted_counterexample :
    claimMirrorDecision (some Facing.environment) Facing.user false = false ∧
    codeMirrorDecision (some Facing.environment) Facing.user false = true ∧
    claimMirrorDecision (some Facing.environment) Facing.user false ≠
      codeMirrorDecision (some Facing.environment) Facing.user false := by
  refine ⟨rfl, rfl, ?_⟩
  decide

/-- Claim C4 amended: the mirror decision at draw time is computed from the
requested facing alone; the script stores no granted facing, so the decision
is independent of whatever the platform actually granted. -/
theorem mirror_decision_independent_of_granted (g g' : Option Facing)
    (req : Facing) (mb : Bool) :
    codeMirrorDecision g req mb = codeMirrorDecision g' req mb ∧
    codeMirrorDecision g req mb = shouldMirror req mb := by
  exact ⟨rfl, rfl⟩

/-- Current transform of the canvas 2D context.  The script only ever
applies `translate(w, 0)` and `scale(-1, 1)`, so no skew component arises;
the transform is `x ↦ a·x + e`, `y ↦ d·y + f`. -/
structure Transform where
  a : Int
  d : Int
  e : Int
  f : Int
deriving DecidableEq

/-- Identity transform: the state of a freshly reset 2D context. -/
def idTransform : Transform := { a := 1, d := 1, e := 0, f := 0 }

/-- Canvas 2D context state relevant to mirroring: the current transform and
the stack maintained by `ctx.save()` / `ctx.restore()`. -/
structure CtxState where
  transform : Transform
  stack : List Transform
deriving DecidableEq

/-- `ctx.save()`: push the current transform onto the state stack. -/
def ctxSave (s : CtxState) : CtxState :=
  { s with stack := s.transform :: s.stack }

/-- `ctx.restore()`: pop the stack into the current transform; a restore on
an empty stack is a no-op per the canvas specification. -/
def ctxRestore (s : CtxState) : CtxState :=
  match s.stack with
  | [] => s
  | t :: rest => { transform := t, stack := rest }

/-- `ctx.translate(tx, ty)`: post-compose the current transform with a
translation. -/
def ctxTranslate (tx ty : Int) (s : CtxState) : CtxState :=
  { s with transform := { s.transform with
      e := s.transform.e + s.transform.a * tx,
      f := s.transform.f + s.transform.d * ty } }

/-- `ctx.scale(sx, sy)`: post-compose the current transform with a scale. -/
def ctxScale (sx sy : Int) (s : CtxState) : CtxState :=
  { s with transform := { s.transform with
      a := s.transform.a * sx,
      d := s.transform.d * sy } }

/-- Transform effect of one `onResults` call (lines 41-76): `ctx.save()`;
`clearRect` (no transform effect); if `shouldMirror` then
`ctx.translate(canvas.width, 0); ctx.scale(-1, 1)`; the `drawConnectors` /
`drawLandmarks` calls (no transform effect — `drawThrows` models one of
them throwing, in which case control leaves `onResults` before line 76 and
`ctx.restore()` never runs, since the script has no try/finally);
`ctx.restore()`.  Returns whether the call completed normally together with
the context state it leaves behind. -/
def onResultsTransform (facing : Facing) (mirrorBack : Bool) (w : Int)
    (drawThrows : Bool) (s : CtxState) : Bool × CtxState :=
  let s1 := ctxSave s
  let s2 := if shouldMirror facing mirrorBack then
      ctxScale (-1) 1 (ctxTranslate w 0 s1)
    else s1
  if drawThrows then (false, s2) else (true, ctxRestore s2)

/-- Claim C2 counterexample: starting from the identity transform with the
shipped configuration (back camera, `mirrorBackCamera = true`, so the call
mirrors), a drawing call that throws leaves the context with the flip
transform still applied and the saved entry still on the stack — the
transform is not restored, so the next call does not start from the
identity. -/
theorem transform_leaks_when_draw_throws :
    (onResultsTransform Facing.environment true 1280 true
        { transform := idTransform, stack := [] }).2.transform ≠ idTransform ∧
    (onResultsTransform Facing.environment true 1280 true
        { transform := idTransform, stack := [] }).2 =
      { transform := { a := -1, d := 1, e := 1280, f := 0 },
        stack := [idTransform] } := by
  constructor
  · decide
  · rfl

/-- Claim C2 amended: the flip transform is scoped to one draw call provided
the drawing body completes without throwing: `ctx.save()` at entry and
`ctx.restore()` at exit bracket the call, so a non-throwing call returns the
context state exactly to what it was on entry (hence, starting from the
identity, the transform is the identity before every subsequent call); if a
drawing routine throws, the restore at line 76 is skipped and the transform
leaks. -/
theorem transform_restored_when_draw_completes (facing : Facing)
    (mb : Bool) (w : Int) (s : CtxState) :
    (onResultsTransform facing mb w false s).1 = true ∧
    (onResultsTransform facing mb w false s).2 = s := by
  unfold onResultsTransform
  cases hm : shouldMirror facing mb <;>
    simp [hm, ctxSave, ctxRestore, ctxTranslate, ctxScale]

/-- Landmark point as the inference collaborator delivers it: position plus
confidence score.  Scores are exact rationals in the model. -/
structure ScoredPoint where
  x : ℚ
  y : ℚ
  score : ℚ
deriving DecidableEq

/-- Modelled from the spec: the per-point visibility threshold 0.35 applied
by the connector-drawing routine.  The routine itself lives in the external
`@mediapipe/drawing_utils` bundle imported at line 7, not under `src/`; the
spec fixes its threshold at 0.35 with a strict comparison. -/
def visibilityThreshold : ℚ := 35 / 100

/-- Modelled from the spec: whether point `i` of a landmark list passes the
visibility threshold — its score must be strictly greater than 0.35 (an
index outside the list has no point and passes nothing). -/
def pointVisible (pts : List ScoredPoint) (i : Nat) : Bool :=
  match pts[i]? with
  | some p => decide (visibilityThreshold < p.score)
  | none => false

/-- Modelled from the spec: the connector-drawing routine from
`@mediapipe/drawing_utils` (called at lines 54, 59, 65, 69), restricted to
the question of which adjacency pairs get a line: a pair `(i, j)` is drawn
iff both endpoint points have score strictly greater than the visibility
threshold. -/
def drawConnectorsModel (pts : List ScoredPoint)
    (connections : List (Nat × Nat)) : List (Nat × Nat) :=
  connections.filter (fun c => pointVisible pts c.1 && pointVisible pts c.2)

/-- Per-frame inference result as `onResults` receives it (lines 53-70):
each landmark group is either absent or a list of scored points. -/
structure LandmarkFrame where
  faceLandmarks : Option (List ScoredPoint)
  poseLandmarks : Option (List ScoredPoint)
  leftHandLandmarks : Option (List ScoredPoint)
  rightHandLandmarks : Option (List ScoredPoint)
deriving DecidableEq

/-- Lines 58-61: the pose connector lines drawn by one `onResults` call —
nothing when the pose group is absent, otherwise the lines the
connector-drawing routine selects from the adjacency table. -/
def drawnLinesPose (r : LandmarkFrame) (conns : List (Nat × Nat)) :
    List (Nat × Nat) :=
  match r.poseLandmarks with
  | some pts => drawConnectorsModel pts conns
  | none => []

/-- Claim C1: for every landmark frame whose pose group is present, an
adjacency pair is drawn iff it is in the adjacency table and both endpoints
are visible; a point with any score is visible exactly when its score is
strictly greater than 0.35; consequently a pair whose endpoint has score
exactly 0.35 is never drawn. -/
theorem line_drawn_iff_scores_above_threshold (r : LandmarkFrame)
    (conns : List (Nat × Nat)) (pts : List ScoredPoint) (c : Nat × Nat)
    (p : ScoredPoint) (hr : r.poseLandmarks = some pts) :
    (c ∈ drawnLinesPose r conns ↔
      c ∈ conns ∧ pointVisible pts c.1 = true ∧ pointVisible pts c.2 = true) ∧
    (pts[c.1]? = some p →
      (pointVisible pts c.1 = true ↔ visibilityThreshold < p.score)) ∧
    (pts[c.1]? = some p → p.score = visibilityThreshold →
      c ∉ drawnLinesPose r conns) := by
  refine ⟨?_, ?_, ?_⟩
  · simp [drawnLinesPose, hr, drawConnectorsModel, List.mem_filter,
      and_assoc]
  · intro hp
    simp [pointVisible, hp]
  · intro hp hs
    simp [drawnLinesPose, hr, drawConnectorsModel, List.mem_filter,
      pointVisible, hp, hs]

/-- Witness for C1: a two-point pose group with scores 0.35 and 0.9 — the
single adjacency pair (0, 1) is not drawn because point 0 sits exactly on
the threshold. -/
theorem line_drawn_iff_scores_above_threshold_witness :
    (LandmarkFrame.mk none
        (some [⟨0, 0, 35 / 100⟩, ⟨1, 1, 9 / 10⟩]) none none).poseLandmarks =
      some [⟨0, 0, 35 / 100⟩, ⟨1, 1, 9 / 10⟩] ∧
    ([⟨0, 0, 35 / 100⟩, ⟨1, 1, 9 / 10⟩] : List ScoredPoint)[0]? =
      some ⟨0, 0, 35 / 100⟩ ∧
    (⟨0, 0, 35 / 100⟩ : ScoredPoint).score = visibilityThreshold ∧
    ((0, 1) : Nat × Nat) ∉
      drawnLinesPose
        (LandmarkFrame.mk none
          (some [⟨0, 0, 35 / 100⟩, ⟨1, 1, 9 / 10⟩]) none none)
        [(0, 1)] :=
  ⟨rfl, rfl, by norm_num [visibilityThreshold],
    (line_drawn_iff_scores_above_threshold
        (LandmarkFrame.mk none
          (some [⟨0, 0, 35 / 100⟩, ⟨1, 1, 9 / 10⟩]) none none)
        [(0, 1)] [⟨0, 0, 35 / 100⟩, ⟨1, 1, 9 / 10⟩] (0, 1)
        ⟨0, 0, 35 / 100⟩ rfl).2.2 rfl (by norm_num [visibilityThreshold])⟩

/-- Effect of one iteration of the per-frame callback installed at lines
142-144: `onFrame: async () => { await holistic.send({ image: video }); }`.
The callback awaits the inference call and contains no try/catch, so a
rejection propagates out of it unchanged; only on success does the library
invoke `onResults`, which clears the overlay and redraws it (modelled here
by its drawn pose lines).  Returns the callback's outcome together with the
overlay content after the iteration. -/
def renderIteration (conns : List (Nat × Nat))
    (inferResult : Except Unit LandmarkFrame)
    (overlay : List (Nat × Nat)) : Except Unit Unit × List (Nat × Nat) :=
  match inferResult with
  | Except.error e => (Except.error e, overlay)
  | Except.ok r => (Except.ok (), drawnLinesPose r conns)

/-- Claim C3 counterexample: with the overlay still holding the previous
frame's line, a failing inference call leaves the callback with an uncaught
error and the overlay uncleared — the script neither catches the failure
nor clears the canvas, contradicting the claimed catch-clear-continue
behaviour. -/
theorem inference_error_not_caught_counterexample :
    renderIteration [(0, 1)] (Except.error ()) [(0, 1)] =
      (Except.error (), [(0, 1)]) ∧
    (Except.error () : Except Unit Unit) ≠ Except.ok () ∧
    ([(0, 1)] : List (Nat × Nat)) ≠ [] := by
  exact ⟨rfl, by simp, by decide⟩

/-- Claim C3 amended: when the inference call fails, the error propagates
uncaught out of the per-frame callback and the overlay keeps its previous
content; the script installs no handler, so whether iteration N+1 still
runs is decided by the external camera helper, not by any code under
`src/`.  On success the callback succeeds and the overlay is redrawn. -/
theorem inference_error_propagates_uncaught (conns : List (Nat × Nat))
    (e : Unit) (r : LandmarkFrame) (overlay : List (Nat × Nat)) :
    renderIteration conns (Except.error e) overlay =
      (Except.error e, overlay) ∧
    renderIteration conns (Except.ok r) overlay =
      (Except.ok (), drawnLinesPose r conns) := by
  exact ⟨rfl, rfl⟩

/-- FPS accounting state (lines 22-23): `lastFpsTime` initialized from the
clock, `frames` a counter starting at 0. -/
structure FpsState where
  frames : Nat
  lastFpsTime : Nat
deriving DecidableEq

/-- Lines 79-85, the FPS block at the end of each `onResults` call:
`frames++; const now = performance.now();
if (now - lastFpsTime >= 1000) { report frames; frames = 0; lastFpsTime = now; }`.
Clock values are milliseconds as `Nat`; a clock reading earlier than
`lastFpsTime` gives a negative difference in JavaScript and `0` under
truncated subtraction — below the threshold either way.  Returns the new
state and the reported FPS value, if any. -/
def fpsStep (now : Nat) (s : FpsState) : FpsState × Option Nat :=
  let frames := s.frames + 1
  if 1000 ≤ now - s.lastFpsTime then
    ({ frames := 0, lastFpsTime := now }, some frames)
  else
    ({ frames := frames, lastFpsTime := s.lastFpsTime }, none)

/-- Running the FPS block over a list of iteration clock readings,
collecting every reported value in order. -/
def fpsRun (times : List Nat) (s : FpsState) : FpsState × List Nat :=
  match times with
  | [] => (s, [])
  | t :: rest =>
    let (s1, rep) := fpsStep t s
    let (s2, reps) := fpsRun rest s1
    (s2, (rep.toList ++ reps))

/-- Thirty iteration times starting from clock 0: the first twenty-nine at
33, 66, ..., 957 ms and the thirtieth at exactly 1000 ms. -/
def thirtyIterationTimes : List Nat :=
  (List.range 29).map (fun k => 33 * (k + 1)) ++ [1000]

/-- Claim C7: every iteration increments the frame counter; once at least
1000 ms have elapsed since the last report the reported FPS equals the
incremented counter and both counter and timer reset; below 1000 ms nothing
is reported and only the counter advances; and in the concrete run of
exactly 30 iterations over exactly 1000 ms the single report is 30 and the
counter ends at 0. -/
theorem fps_reports_counter_and_resets (s : FpsState) (now : Nat) :
    (1000 ≤ now - s.lastFpsTime →
      fpsStep now s = ({ frames := 0, lastFpsTime := now }, some (s.frames + 1))) ∧
    (now - s.lastFpsTime < 1000 →
      fpsStep now s =
        ({ frames := s.frames + 1, lastFpsTime := s.lastFpsTime }, none)) ∧
    fpsRun thirtyIterationTimes { frames := 0, lastFpsTime := 0 } =
      ({ frames := 0, lastFpsTime := 1000 }, [30]) := by
  refine ⟨?_, ?_, ?_⟩
  · intro h
    simp [fpsStep, h]
  · intro h
    simp [fpsStep, Nat.not_le.mpr h]
  · decide

/-- Witness for C7 at a concrete reporting step: counter 29, last report at
clock 0, current clock 1000 — the step reports 30 and resets. -/
theorem fps_reports_counter_and_resets_witness :
    1000 ≤ 1000 - 0 ∧
    fpsStep 1000 { frames := 29, lastFpsTime := 0 } =
      ({ frames := 0, lastFpsTime := 1000 }, some 30) :=
  ⟨by decide,
    (fps_reports_counter_and_resets { frames := 29, lastFpsTime := 0 } 1000).1
      (by decide)⟩

/-- Camera-acquisition state of the script: `cameraInstance` (line 20) and
`video.srcObject` are the variables the script tracks; `running` is the set
of MediaPipe Camera helpers started and not yet stopped, and `liveStreams`
the set of media streams whose tracks have not been stopped — both
identified by allocation ids.  `gumCalls` counts `getUserMedia`
invocations and `alerts` the user-facing error notices. -/
structure CamState where
  cameraInstance : Option Nat
  running : List Nat
  srcObject : Option Nat
  liveStreams : List Nat
  nextId : Nat
  gumCalls : Nat
  alerts : Nat
deriving DecidableEq

/-- Lines 112-122 of `startCamera`: stop the previous camera helper if one
is tracked and null the variable; stop every track of the stream attached
to the video element and null `srcObject`.  Only the tracked instances are
stopped — an untracked running camera is untouched. -/
def stopPrevious (s : CamState) : CamState :=
  let s1 := match s.cameraInstance with
    | some c => { s with running := s.running.erase c, cameraInstance := none }
    | none => s
  match s1.srcObject with
  | some t => { s1 with liveStreams := s1.liveStreams.erase t, srcObject := none }
  | none => s1

/-- First atomic segment of `startCamera` (lines 111-133): runs
synchronously from entry up to the `await` on `getUserMedia` — stop the
previous camera, then issue the acquisition request. -/
def segStopAndRequest (s : CamState) : CamState :=
  let s1 := stopPrevious s
  { s1 with gumCalls := s1.gumCalls + 1 }

/-- Second atomic segment (lines 136-137): `getUserMedia` resolved — the
granted stream's tracks are now live — and the stream is attached to the
video element, up to the `await` on `video.play()`. -/
def segAttachStream (s : CamState) : CamState :=
  { s with liveStreams := s.nextId :: s.liveStreams,
           srcObject := some s.nextId,
           nextId := s.nextId + 1 }

/-- Third atomic segment (lines 138-158): `video.play()` resolved — resize
the canvas, create a new MediaPipe Camera helper, store it in
`cameraInstance` and start it. -/
def segStartInstance (s : CamState) : CamState :=
  { s with cameraInstance := some s.nextId,
           running := s.nextId :: s.running,
           nextId := s.nextId + 1 }

/-- Atomic segments of one `startCamera` call, interleavable with the
segments of a concurrent call at the `await` boundaries. -/
inductive CamSeg where
  | stopAndRequest
  | attachStream
  | startInstance

/-- Apply one segment to the shared state. -/
def applySeg : CamSeg → CamState → CamState
  | CamSeg.stopAndRequest => segStopAndRequest
  | CamSeg.attachStream => segAttachStream
  | CamSeg.startInstance => segStartInstance

/-- Run a schedule — a list of segments in global execution order — over
the shared state. -/
def runSegs (sched : List CamSeg) (s : CamState) : CamState :=
  sched.foldl (fun st g => applySeg g st) s

/-- One `startCamera` call that runs to completion with a granted stream:
its three segments execute back to back. -/
def startCameraSuccess (s : CamState) : CamState :=
  segStartInstance (segAttachStream (segStopAndRequest s))

/-- One `startCamera` call whose `getUserMedia` rejects (lines 160-163):
the first segment runs, then the catch block logs and alerts; the segments
after the `await` never run and `startCamera` returns. -/
def startCameraFailure (s : CamState) : CamState :=
  let s1 := segStopAndRequest s
  { s1 with alerts := s1.alerts + 1 }

/-- State at page load: no camera, no stream, no calls yet. -/
def initCamState : CamState :=
  { cameraInstance := none, running := [], srcObject := none,
    liveStreams := [], nextId := 0, gumCalls := 0, alerts := 0 }

/-- Well-formedness the script relies on: every running camera helper is
the one tracked in `cameraInstance`, and every live stream is the one
attached to `srcObject` — nothing has leaked. -/
def wfCam (s : CamState) : Prop :=
  s.running = s.cameraInstance.toList ∧ s.liveStreams = s.srcObject.toList

/-- Interleaving of two concurrent `startCamera` calls A and B (two rapid
switch-button clicks — the handler at lines 167-171 has no in-flight
guard): positions 0, 2, 4 are A's segments in order and positions 1, 3, 5
are B's segments in order, a valid interleaving at the `await` points. -/
def interleavedSwitches : List CamSeg :=
  [CamSeg.stopAndRequest, CamSeg.stopAndRequest,
   CamSeg.attachStream, CamSeg.attachStream,
   CamSeg.startInstance, CamSeg.startInstance]

/-- Claim C8 counterexample: starting from the state after the initial
successful `startCamera`, two interleaved switch clicks leave two camera
helpers running and two streams with live tracks — call B's
`stopPrevious` ran before call A attached its stream and started its
helper, so neither of A's resources is ever stopped.  The script runs two
acquisitions concurrently and leaks the first. -/
theorem concurrent_switches_leave_two_acquisitions :
    (runSegs interleavedSwitches (startCameraSuccess initCamState)).running.length = 2 ∧
    (runSegs interleavedSwitches
        (startCameraSuccess initCamState)).liveStreams.length = 2 ∧
    (runSegs interleavedSwitches (startCameraSuccess initCamState)).running =
      [5, 4] ∧
    (runSegs interleavedSwitches (startCameraSuccess initCamState)).liveStreams =
      [3, 2] := by
  refine ⟨rfl, rfl, rfl, rfl⟩

/-- Claim C8 amended: when `startCamera` calls run strictly sequentially
(each completes before the next starts), the property holds — from any
non-leaked state, the segment before the acquisition request has already
stopped the running camera and released every live track, and a completed
call leaves exactly one running camera and one live stream, preserving
non-leakage; but concurrent switch requests are not serialized, and an
interleaving of two calls runs two acquisitions concurrently. -/
theorem sequential_switch_single_acquisition (s : CamState) (h : wfCam s) :
    (segStopAndRequest s).running = [] ∧
    (segStopAndRequest s).liveStreams = [] ∧
    wfCam (startCameraSuccess s) ∧
    (startCameraSuccess s).running.length = 1 ∧
    (startCameraSuccess s).liveStreams.length = 1 := by
  obtain ⟨h1, h2⟩ := h
  cases hc : s.cameraInstance <;> cases ht : s.srcObject <;>
    simp_all [segStopAndRequest, stopPrevious, startCameraSuccess,
      segAttachStream, segStartInstance, wfCam, Option.toList]

/-- Witness for the amended C8 at the state left by the initial successful
start. -/
theorem sequential_switch_single_acquisition_witness :
    wfCam (startCameraSuccess initCamState) ∧
    (segStopAndRequest (startCameraSuccess initCamState)).running = [] ∧
    (startCameraSuccess (startCameraSuccess initCamState)).running.length = 1 :=
  ⟨⟨rfl, rfl⟩,
    (sequential_switch_single_acquisition (startCameraSuccess initCamState)
      ⟨rfl, rfl⟩).1,
    (sequential_switch_single_acquisition (startCameraSuccess initCamState)
      ⟨rfl, rfl⟩).2.2.2.1⟩

/-- Claim C10: when `getUserMedia` rejects, the previous camera helper and
all previous tracks were already stopped and the variables nulled before
the acquisition was attempted (the stop happens in the same synchronous
segment that issues the request); the failing call makes exactly one
acquisition attempt (no automatic retry), raises exactly one user-facing
alert, and leaves the system with no running camera and no live tracks. -/
theorem failed_acquisition_leaves_no_camera (s : CamState) (h : wfCam s) :
    (segStopAndRequest s).running = [] ∧
    (segStopAndRequest s).liveStreams = [] ∧
    (segStopAndRequest s).cameraInstance = none ∧
    (segStopAndRequest s).srcObject = none ∧
    (startCameraFailure s).running = [] ∧
    (startCameraFailure s).liveStreams = [] ∧
    (startCameraFailure s).cameraInstance = none ∧
    (startCameraFailure s).srcObject = none ∧
    (startCameraFailure s).gumCalls = s.gumCalls + 1 ∧
    (startCameraFailure s).alerts = s.alerts + 1 := by
  obtain ⟨h1, h2⟩ := h
  cases hc : s.cameraInstance <;> cases ht : s.srcObject <;>
    simp_all [segStopAndRequest, stopPrevious, startCameraFailure,
      Option.toList]

/-- Witness for C10: a failing switch from the state with one active
camera. -/
theorem failed_acquisition_leaves_no_camera_witness :
    wfCam (startCameraSuccess initCamState) ∧
    (startCameraFailure (startCameraSuccess initCamState)).running = [] ∧
    (startCameraFailure (startCameraSuccess initCamState)).alerts = 1 :=
  ⟨⟨rfl, rfl⟩,
    (failed_acquisition_leaves_no_camera (startCameraSuccess initCamState)
      ⟨rfl, rfl⟩).2.2.2.2.1,
    (failed_acquisition_leaves_no_camera (startCameraSuccess initCamState)
      ⟨rfl, rfl⟩).2.2.2.2.2.2.2.2.2⟩
